import Mathlib

/-!
Shallow embedding of `src/commands.ts` of the metaschema-js repository.

Effectful TypeScript code is modelled by passing the outcomes of the
external effects (file system, child processes, network fetches, and the
third-party XML/JSON/YAML parsers) explicitly as environment values, and
recording the mutating steps a function performs as explicit data.
JavaScript values produced by the generic parsers are modelled by the
inductive `JSValue`; `Object.keys` is modelled by `objectKeysE` (it throws
a `TypeError` on `null`/`undefined`, and returns index keys on arrays).
-/

deriving instance DecidableEq for Except

/-- A JavaScript value as returned by `JSON.parse`, `yaml.load` or the
xml2js parser: object, array, string, number, boolean, `null` or
`undefined`. -/
inductive JSValue where
  | obj (fields : List (String × JSValue))
  | arr (elems : List JSValue)
  | str (s : String)
  | num (n : Int)
  | boolean (b : Bool)
  | null
  | undef

/-- The enumerable own keys of a JavaScript value: field names of an
object, decimal index strings of an array, nothing for primitives. -/
def jsKeys : JSValue → List String
  | .obj fields => fields.map Prod.fst
  | .arr elems => (List.range elems.length).map toString
  | _ => []

/-- `Object.keys`: throws a `TypeError` on `null` and `undefined`,
otherwise returns the enumerable keys. -/
def objectKeysE : JSValue → Except String (List String)
  | .null => .error "TypeError: Cannot convert undefined or null to object"
  | .undef => .error "TypeError: Cannot convert undefined or null to object"
  | v => .ok (jsKeys v)

/-- `typeof v === 'object'` in JavaScript: true for objects, arrays and
`null`. -/
def jsTypeofIsObject : JSValue → Bool
  | .obj _ => true
  | .arr _ => true
  | .null => true
  | _ => false

/-- `v === null`. -/
def isNull : JSValue → Bool
  | .null => true
  | _ => false

/-- `type MetaschemaDocumentType = 'Metaschema' | "MetaConstraints"`
("Primary" and "ConstraintSet" in the spec's vocabulary). -/
inductive MetaschemaDocumentType where
  | Metaschema
  | MetaConstraints
deriving DecidableEq, Repr

/-- `type FileFormat = 'xml' | 'json' | 'yaml'`. -/
inductive FileFormat where
  | xml
  | json
  | yaml
deriving DecidableEq, Repr

/-- `getDocumentType` (commands.ts lines 114-120): a switch on the root
element name; `metaschema-meta-constraints` maps to `MetaConstraints`,
`METASCHEMA` maps to `Metaschema`, and the default case also yields
`Metaschema`.  The argument is `none` when `Object.keys(...)[0]` was
`undefined`. -/
def getDocumentType : Option String → MetaschemaDocumentType
  | some root =>
      if root = "metaschema-meta-constraints" then .MetaConstraints
      else if root = "METASCHEMA" then .Metaschema
      else .Metaschema
  | none => .Metaschema

/-- `String.prototype.toLowerCase` restricted to the ASCII range (the
only characters appearing in file extensions here). -/
def toLowerAscii (s : String) : String := String.mk (s.data.map Char.toLower)

/-- The basename of a path: everything after the last `/`. -/
def basenameChars (s : String) : List Char :=
  (s.data.reverse.takeWhile (fun c => c ≠ '/')).reverse

/-- `path.extname`: the substring of the basename from its last `.`
(inclusive); empty when the basename has no dot or only a leading dot. -/
def extname (s : String) : String :=
  let b := basenameChars s
  let afterDot := b.reverse.takeWhile (fun c => c ≠ '.')
  if afterDot.length = b.length then ""
  else if afterDot.length + 1 = b.length then ""
  else String.mk ('.' :: afterDot.reverse)

/-- The extension whitelist of `detectMetaschemaDocumentType`. -/
def supportedExtensions : List String := [".xml", ".json", ".yaml", ".yml"]

/-- The results of handing one file's text to each of the three
third-party parsers (xml2js `parseStringPromise`, `JSON.parse`,
`yaml.load`); an `error` is the exception the parser threw. -/
structure ParsedContent where
  asXml : Except String JSValue
  asJson : Except String JSValue
  asYaml : Except String JSValue

/-- `parseYamlDocument` (lines 79-92): reject with `Invalid YAML
structure` when the loaded value is not a non-null object (the missing
`return` after `reject` is unobservable: a promise keeps its first
settlement), otherwise classify by the first top-level key.  A `yaml.load`
exception is wrapped as `Failed to parse YAML`. -/
def parseYamlDocument (parsed : Except String JSValue) :
    Except String (MetaschemaDocumentType × FileFormat) :=
  match parsed with
  | .error e => .error ("Failed to parse YAML: " ++ e)
  | .ok v =>
    if !jsTypeofIsObject v || isNull v then .error "Invalid YAML structure"
    else .ok (getDocumentType (jsKeys v).head?, .yaml)

/-- `parseXmlDocument` (lines 93-102): classify by the first key of the
xml2js result (its root element); a parser exception is wrapped as
`Failed to parse XML`. -/
def parseXmlDocument (parsed : Except String JSValue) :
    Except String (MetaschemaDocumentType × FileFormat) :=
  match parsed with
  | .error e => .error ("Failed to parse XML: " ++ e)
  | .ok v =>
    match objectKeysE v with
    | .error e => .error ("Failed to parse XML: " ++ e)
    | .ok keys => .ok (getDocumentType keys.head?, .xml)

/-- `parseJsonDocument` (lines 104-112): classify by
`Object.keys(JSON.parse(content))[0]`; any exception (syntax error or the
`TypeError` of `Object.keys` on `null`) is wrapped as `Failed to parse
JSON`. -/
def parseJsonDocument (parsed : Except String JSValue) :
    Except String (MetaschemaDocumentType × FileFormat) :=
  match parsed with
  | .error e => .error ("Failed to parse JSON: " ++ e)
  | .ok v =>
    match objectKeysE v with
    | .error e => .error ("Failed to parse JSON: " ++ e)
    | .ok keys => .ok (getDocumentType keys.head?, .json)

/-- Outcome of `detectMetaschemaDocumentType`, together with whether the
call reached `readFileSync` (the content read happens only after the
extension check passes). -/
structure Detection where
  readsContent : Bool
  result : Except String (MetaschemaDocumentType × FileFormat)
deriving Repr

/-- `detectMetaschemaDocumentType` (lines 62-78): reject unsupported
extensions before any read, then dispatch on the (lower-cased)
extension. -/
def detectMetaschemaDocumentType (filePath : String) (content : ParsedContent) :
    Detection :=
  let fileExtension := toLowerAscii (extname filePath)
  if ¬ (fileExtension ∈ supportedExtensions) then
    { readsContent := false,
      result := .error "Unsupported file format. Only XML YAML and JSON are supported." }
  else
    { readsContent := true,
      result :=
        if fileExtension = ".xml" then parseXmlDocument content.asXml
        else if fileExtension = ".json" then parseJsonDocument content.asJson
        else parseYamlDocument content.asYaml }

/-- The format the spec associates to each supported extension (`.yml`
and `.yaml` both mean yaml). -/
def formatOfExt (ext : String) : Option FileFormat :=
  if ext = ".xml" then some .xml
  else if ext = ".json" then some .json
  else if ext = ".yaml" ∨ ext = ".yml" then some .yaml
  else none

/-- The parser outcome the dispatch uses for a given format. -/
def parseFor (c : ParsedContent) : FileFormat → Except String JSValue
  | .xml => c.asXml
  | .json => c.asJson
  | .yaml => c.asYaml

/-- An HTTP response as seen by `getVersionsFromMaven`: the `ok` flag
(status in the 2xx range), the status code, and the body text. -/
structure FetchResponse where
  ok : Bool
  status : Nat
  body : String

/-- The fields `getVersionsFromMaven` extracts from the parsed
maven-metadata document: `metadata.versioning[0].versions[0].version`
(in document order) and `metadata.versioning[0].release[0]`. -/
structure MavenMetadata where
  versions : List String
  release : String

/-- Environment of `getVersionsFromMaven`: the outcome of `fetch` (an
`error` is a transport failure) and an oracle for the xml2js parse plus
field extraction (an `error` covers both a parse exception and a missing
field). -/
structure MavenEnv where
  fetchResult : Except String FetchResponse
  parseMetadata : String → Except String MavenMetadata

/-- The order `Array.prototype.sort()` uses with its default comparator
on strings: `a` sorts no later than `b` when `a` does not come strictly
after `b` in lexicographic (code-unit) comparison of the character
lists. -/
def jsLeStr (a b : String) : Bool := !(decide (b.data < a.data))

/-- `Array.prototype.sort()` with the default comparator on an array of
strings: the sorted-ascending permutation under lexicographic string
comparison. -/
def jsSortStrings (l : List String) : List String := l.mergeSort jsLeStr

/-- `getVersionsFromMaven` (commands.ts lines 19-37): fetch the metadata
URL, fail on a non-ok response, parse, then return the version list
**sorted** by `Array.prototype.sort()` together with the release version.
The catch clause logs and rethrows, so every error passes through
unchanged. -/
def getVersionsFromMaven (env : MavenEnv) :
    Except String (List String × String) :=
  match env.fetchResult with
  | .error e => .error e
  | .ok response =>
    if !response.ok then .error ("HTTP error! status: " ++ toString response.status)
    else
      match env.parseMetadata response.body with
      | .error e => .error e
      | .ok md => .ok (jsSortStrings md.versions, md.release)

/-- One state-mutating step of `installMetaschemaCli`, in source order:
read the npm root via `execSync`, create the install directory, download
the archive for the resolved version, extract it, `chmodSync` the entry
point (non-Windows), remove an existing alias, and write the batch shim
(Windows) or the symlink (elsewhere). -/
inductive InstallStep where
  | queryNpmRoot
  | mkdir
  | download (version : String)
  | extract
  | chmod
  | removeAlias
  | writeBatchAlias
  | symlinkAlias
deriving DecidableEq, Repr

/-- Run the planned steps in order until one fails; return the steps that
completed and the outcome. -/
def runSteps (f : InstallStep → Option String) :
    List InstallStep → List InstallStep × Except String Unit
  | [] => ([], .ok ())
  | s :: rest =>
    match f s with
    | some e => ([], .error e)
    | none =>
      let (done, r) := runSteps f rest
      (s :: done, r)

/-- Environment of `installMetaschemaCli`: the Maven environment, the
platform, whether an alias already exists at the alias path, and an
oracle giving each effectful step's failure (if any). -/
structure InstallEnv where
  maven : MavenEnv
  isWindows : Bool
  aliasExists : Bool
  stepFail : InstallStep → Option String

/-- The sequence of mutating steps `installMetaschemaCli` performs once a
version is resolved, in source order (lines 165-204). -/
def installPlan (resolved : String) (env : InstallEnv) : List InstallStep :=
  [.queryNpmRoot, .mkdir, .download resolved, .extract]
    ++ (if env.isWindows then [] else [.chmod])
    ++ (if env.aliasExists then [.removeAlias] else [])
    ++ [if env.isWindows then InstallStep.writeBatchAlias else InstallStep.symlinkAlias]

/-- The catch clause of `installMetaschemaCli`: any error thrown inside
the try block is rewrapped. -/
def wrapInstallError : Except String Unit → Except String Unit
  | .ok _ => .ok ()
  | .error e => .error ("Failed to install METASCHEMA CLI: " ++ e)

/-- `installMetaschemaCli` (lines 151-212): fetch the version list;
resolve `latest` to the release; for an explicit version absent from the
list, log the valid choices and return (no step performed, no throw);
otherwise perform the install steps, wrapping any failure as a
`Failed to install METASCHEMA CLI` error.  Returns the performed steps
and the outcome. -/
def installMetaschemaCli (version : String) (env : InstallEnv) :
    List InstallStep × Except String Unit :=
  match getVersionsFromMaven env.maven with
  | .error e => ([], .error ("Failed to install METASCHEMA CLI: " ++ e))
  | .ok (versions, latestVersion) =>
    if version = "latest" then
      let (done, r) := runSteps env.stepFail (installPlan latestVersion env)
      (done, wrapInstallError r)
    else if version ∉ versions then
      ([], .ok ())
    else
      let (done, r) := runSteps env.stepFail (installPlan version env)
      (done, wrapInstallError r)

/-- `checkCommand` (lines 122-128): resolve `!error`, i.e. true exactly
when `exec` reported no error. -/
def checkCommand (execError : Option String) : Bool := execError.isNone

/-- `isMetaschemaCliInstalled` (lines 130-140): true when the
`where`/`which` probe succeeds, otherwise fall back to
`fs.existsSync(path.join('.', 'metaschema-cli'))`. -/
def isMetaschemaCliInstalled (execError : Option String) (cwdEntryExists : Bool) : Bool :=
  if checkCommand execError then true else cwdEntryExists

/-- `String.prototype.split('\n')`: split on every newline; never empty. -/
def splitNl : List Char → List (List Char)
  | [] => [[]]
  | c :: rest =>
    let r := splitNl rest
    if c = '\n' then [] :: r
    else (c :: r.headD []) :: r.tail

/-- `String.prototype.trim`: drop whitespace from both ends. -/
def trimChars (cs : List Char) : List Char :=
  ((cs.dropWhile Char.isWhitespace).reverse.dropWhile Char.isWhitespace).reverse

/-- Errors raised by the command-runner layer, with the message text each
one carries in the source. -/
inductive CliError where
  | notFound
  | spawnFailure (msg : String)
  | procExit (code : Int) (capturedStderr : String)
deriving DecidableEq, Repr

/-- The `Error` message the source builds for each `CliError`. -/
def CliError.message : CliError → String
  | .notFound => "METASCHEMA CLI not found"
  | .spawnFailure m => "Failed to start METASCHEMA CLI process: " ++ m
  | .procExit code stderrText =>
      "METASCHEMA CLI process exited with code " ++ toString code ++ ":\n" ++ stderrText

/-- `findMetaschemaCliPath` (lines 309-323): run `where`/`which` via
`execPromise`; on success split the trimmed stdout on newlines and return
the first entry (the `length > 0` guard, modelled by the match, since a
JavaScript `split` is never empty); on failure throw `METASCHEMA CLI not
found`. -/
def findMetaschemaCliPath (searchResult : Except String String) :
    Except CliError String :=
  match searchResult with
  | .error _ => .error .notFound
  | .ok stdout =>
    match splitNl (trimChars stdout.data) with
    | p :: _ => .ok (String.mk p)
    | [] => .error .notFound

/-- Environment of `executeMetaschemaCliCommand`: the `where`/`which`
outcome used by `findMetaschemaCliPath`, the spawn `error` event (if
any), the exit code, and the `data` chunks emitted on each stream. -/
structure ProcEnv where
  searchResult : Except String String
  spawnError : Option String
  exitCode : Int
  stdoutChunks : List String
  stderrChunks : List String

/-- `executeMetaschemaCliCommand` (lines 217-281): locate the binary
(propagating its error through the final `.catch`), reject on a spawn
`error` event, and on `close` resolve with the concatenated captured
streams when the code is 0, otherwise reject with a process-exit error
carrying the code and the captured stderr. -/
def executeMetaschemaCliCommand (env : ProcEnv) :
    Except CliError (String × String) :=
  match findMetaschemaCliPath env.searchResult with
  | .error e => .error e
  | .ok _path =>
    match env.spawnError with
    | some m => .error (.spawnFailure m)
    | none =>
      if env.exitCode = 0 then
        .ok (String.join env.stdoutChunks, String.join env.stderrChunks)
      else
        .error (.procExit env.exitCode (String.join env.stderrChunks))

/-- The argument list `validateWithSarif` hands to the runner (line
284). -/
def sarifArgs (args : List String) (tempFile : String) : List String :=
  args ++ ["-o", tempFile, "--sarif-include-pass", "--show-stack-trace"]

/-- How a `validateWithSarif` call ends: return a parsed log, throw a raw
string (the `throw (consoleErr)` statement), or throw an `Error`/parser
exception with the given message. -/
inductive SarifOutcome where
  | log (parsed : JSValue)
  | threwString (s : String)
  | threwError (msg : String)

/-- Environment of `validateWithSarif`: the runner's environment, the
content of the temp file once the run has finished (`none` when the tool
created no file), and an oracle for `JSON.parse` on its text. -/
structure SarifEnv where
  proc : ProcEnv
  tempAfterRun : Option String
  jsonParse : String → Except String JSValue

/-- `validateWithSarif` (lines 282-307).  `consoleErr` starts as `""` and
is reassigned only after a *successful* await, so in the catch branch it
still holds `""`.  Each branch that reads the temp file removes it with
`rmSync` before `JSON.parse` runs.  The second component of the result is
whether the temp file still exists when the call returns. -/
def validateWithSarif (env : SarifEnv) : SarifOutcome × Bool :=
  let consoleErr := ""
  match executeMetaschemaCliCommand env.proc with
  | .error _e =>
    match env.tempAfterRun with
    | none =>
      (.threwString consoleErr, false)
    | some content =>
      match env.jsonParse content with
      | .ok v => (.log v, false)
      | .error pe => (.threwError pe, false)
  | .ok (_out, err) =>
    let _consoleErr := err
    match env.tempAfterRun with
    | none =>
      (.threwError "Failed to read or parse SARIF output: Error: ENOENT", false)
    | some content =>
      match env.jsonParse content with
      | .ok v => (.log v, false)
      | .error pe =>
        (.threwError ("Failed to read or parse SARIF output: " ++ pe), false)

theorem getDocumentType_some (r : String) :
    getDocumentType (some r) =
      (if r = "metaschema-meta-constraints" then .MetaConstraints
       else .Metaschema) := by
  simp only [getDocumentType]
  split_ifs <;> rfl

theorem jsLeStr_trans (a b c : String) (h₁ : jsLeStr a b = true)
    (h₂ : jsLeStr b c = true) : jsLeStr a c = true := by
  simp only [jsLeStr, Bool.not_eq_true', decide_eq_false_iff_not] at h₁ h₂ ⊢
  intro hca
  rcases lt_trichotomy a.data b.data with hab | hab | hab
  · exact h₂ (lt_trans hca hab)
  · exact h₂ (hab ▸ hca)
  · exact h₁ hab

theorem jsLeStr_total (a b : String) : (jsLeStr a b || jsLeStr b a) = true := by
  simp only [jsLeStr]
  by_cases h : b.data < a.data
  · simp [h, lt_asymm h]
  · simp [h]

theorem jsLeStr_antisymm (a b : String) (h₁ : jsLeStr a b = true)
    (h₂ : jsLeStr b a = true) : a = b := by
  simp only [jsLeStr, Bool.not_eq_true', decide_eq_false_iff_not] at h₁ h₂
  have hd : a.data = b.data := by
    rcases lt_trichotomy a.data b.data with h | h | h
    · exact absurd h h₂
    · exact h
    · exact absurd h h₁
  exact congrArg String.mk hd

theorem jsSortStrings_perm (l : List String) : (jsSortStrings l).Perm l :=
  List.mergeSort_perm l jsLeStr

theorem jsSortStrings_pairwise (l : List String) :
    (jsSortStrings l).Pairwise (fun a b => jsLeStr a b = true) := by
  simpa using List.sorted_mergeSort
    (fun a b c h₁ h₂ => jsLeStr_trans a b c h₁ h₂)
    (fun a b => jsLeStr_total a b) l

theorem jsSortStrings_eq (l m : List String) (hp : l.Perm m)
    (hs : m.Pairwise (fun a b => jsLeStr a b = true)) : jsSortStrings l = m := by
  haveI : IsAntisymm String (fun a b => jsLeStr a b = true) :=
    ⟨fun a b h₁ h₂ => jsLeStr_antisymm a b h₁ h₂⟩
  exact List.eq_of_perm_of_sorted ((jsSortStrings_perm l).trans hp)
    (jsSortStrings_pairwise l) hs

/-- C3 counterexample: with a remote index listing the versions in the
order `["0.9.0", "0.10.0"]` (and release `0.10.0`), the function returns
`["0.10.0", "0.9.0"]` — the JavaScript `sort()` order — which is not the
index's own ordering. -/
theorem getVersionsFromMaven_not_index_order :
    getVersionsFromMaven
      { fetchResult := .ok { ok := true, status := 200, body := "metadata-xml" },
        parseMetadata := fun _ =>
          .ok { versions := ["0.9.0", "0.10.0"], release := "0.10.0" } } =
      .ok (["0.10.0", "0.9.0"], "0.10.0") ∧
    (["0.10.0", "0.9.0"] : List String) ≠ ["0.9.0", "0.10.0"] := by
  constructor
  · have hs : jsSortStrings ["0.9.0", "0.10.0"] = ["0.10.0", "0.9.0"] :=
      jsSortStrings_eq _ _ (by decide) (by decide)
    simp [getVersionsFromMaven, hs]
  · decide

/-- C3 amended: on a successful fetch and parse, `getVersionsFromMaven`
returns the release version together with the version list **sorted by
the default JavaScript string ordering** — a permutation of the index's
list in ascending lexicographic order, not the index's own ordering. -/
theorem getVersionsFromMaven_sorted_perm (env : MavenEnv)
    (resp : FetchResponse) (md : MavenMetadata)
    (hf : env.fetchResult = .ok resp) (hok : resp.ok = true)
    (hp : env.parseMetadata resp.body = .ok md) :
    getVersionsFromMaven env = .ok (jsSortStrings md.versions, md.release) ∧
    (jsSortStrings md.versions).Perm md.versions ∧
    (jsSortStrings md.versions).Pairwise (fun a b => jsLeStr a b = true) := by
  refine ⟨?_, jsSortStrings_perm md.versions, jsSortStrings_pairwise md.versions⟩
  unfold getVersionsFromMaven
  rw [hf]
  simp [hok, hp]

/-- C3 witness: a concrete environment whose index lists
`["1.0.0", "0.9.0"]` with release `1.0.0`. -/
theorem getVersionsFromMaven_sorted_perm_witness :
    getVersionsFromMaven
      { fetchResult := .ok { ok := true, status := 200, body := "metadata-xml" },
        parseMetadata := fun _ =>
          .ok { versions := ["1.0.0", "0.9.0"], release := "1.0.0" } } =
      .ok (jsSortStrings ["1.0.0", "0.9.0"], "1.0.0") ∧
    (jsSortStrings ["1.0.0", "0.9.0"]).Perm ["1.0.0", "0.9.0"] ∧
    (jsSortStrings ["1.0.0", "0.9.0"]).Pairwise (fun a b => jsLeStr a b = true) :=
  getVersionsFromMaven_sorted_perm
    { fetchResult := .ok { ok := true, status := 200, body := "metadata-xml" },
      parseMetadata := fun _ =>
        .ok { versions := ["1.0.0", "0.9.0"], release := "1.0.0" } }
    { ok := true, status := 200, body := "metadata-xml" }
    { versions := ["1.0.0", "0.9.0"], release := "1.0.0" }
    rfl rfl rfl

/-- C6: for every explicit version string absent from the fetched version
list, `installMetaschemaCli` returns normally (no thrown error) and
performs no install step at all: no npm-root query, directory creation,
download, extraction, permission change, alias removal or alias
creation. -/
theorem installMetaschemaCli_unknown_version_noop (version : String)
    (env : InstallEnv) (versions : List String) (latest : String)
    (hm : getVersionsFromMaven env.maven = .ok (versions, latest))
    (hlatest : version ≠ "latest") (habs : version ∉ versions) :
    installMetaschemaCli version env = ([], .ok ()) := by
  unfold installMetaschemaCli
  rw [hm]
  simp [hlatest, habs]

/-- C6 witness: requesting version `9.9.9` when the index only knows
`1.0.0` is a no-op that does not throw. -/
theorem installMetaschemaCli_unknown_version_noop_witness :
    installMetaschemaCli "9.9.9"
      { maven :=
          { fetchResult := .ok { ok := true, status := 200, body := "metadata-xml" },
            parseMetadata := fun _ => .ok { versions := ["1.0.0"], release := "1.0.0" } },
        isWindows := false, aliasExists := false, stepFail := fun _ => none } =
      ([], .ok ()) :=
  installMetaschemaCli_unknown_version_noop "9.9.9"
    { maven :=
        { fetchResult := .ok { ok := true, status := 200, body := "metadata-xml" },
          parseMetadata := fun _ => .ok { versions := ["1.0.0"], release := "1.0.0" } },
      isWindows := false, aliasExists := false, stepFail := fun _ => none }
    ["1.0.0"] "1.0.0"
    (by
      have hs : jsSortStrings ["1.0.0"] = ["1.0.0"] :=
        jsSortStrings_eq _ _ (by decide) (by decide)
      simp [getVersionsFromMaven, hs])
    (by decide) (by decide)

/-- C7: with the binary located and no spawn failure, a run that exits 0
resolves with the pair of captured streams (even when stderr is
non-empty), and a run that exits non-zero fails with a process-exit error
carrying the exit code and a captured stderr equal to the concatenation
of the chunks the child emitted on stderr. -/
theorem executeMetaschemaCliCommand_exit (env : ProcEnv) (p : String)
    (hpath : findMetaschemaCliPath env.searchResult = .ok p)
    (hspawn : env.spawnError = none) :
    (env.exitCode = 0 →
      executeMetaschemaCliCommand env =
        .ok (String.join env.stdoutChunks, String.join env.stderrChunks)) ∧
    (env.exitCode ≠ 0 →
      executeMetaschemaCliCommand env =
        .error (.procExit env.exitCode (String.join env.stderrChunks))) := by
  unfold executeMetaschemaCliCommand
  rw [hpath, hspawn]
  constructor
  · intro h
    simp [h]
  · intro h
    simp [h]

/-- C7 witness: a run exiting 0 with stderr chunk `warn` resolves with
both streams; a run exiting 2 with stderr chunks `boom` and `!` fails
with a process error carrying code 2 and stderr `boom!`. -/
theorem executeMetaschemaCliCommand_exit_witness :
    executeMetaschemaCliCommand
      { searchResult := .ok "/usr/local/bin/metaschema-cli", spawnError := none,
        exitCode := 0, stdoutChunks := ["ok-out"], stderrChunks := ["warn"] } =
      .ok ("ok-out", "warn") ∧
    executeMetaschemaCliCommand
      { searchResult := .ok "/usr/local/bin/metaschema-cli", spawnError := none,
        exitCode := 2, stdoutChunks := [], stderrChunks := ["boom", "!"] } =
      .error (.procExit 2 "boom!") := by
  constructor
  · exact (executeMetaschemaCliCommand_exit
      { searchResult := .ok "/usr/local/bin/metaschema-cli", spawnError := none,
        exitCode := 0, stdoutChunks := ["ok-out"], stderrChunks := ["warn"] }
      "/usr/local/bin/metaschema-cli" rfl rfl).1 rfl
  · exact (executeMetaschemaCliCommand_exit
      { searchResult := .ok "/usr/local/bin/metaschema-cli", spawnError := none,
        exitCode := 2, stdoutChunks := [], stderrChunks := ["boom", "!"] }
      "/usr/local/bin/metaschema-cli" rfl rfl).2 (by decide)

theorem splitNl_ne_nil (cs : List Char) : splitNl cs ≠ [] := by
  cases cs with
  | nil => simp [splitNl]
  | cons c rest =>
    simp only [splitNl]
    split <;> simp

/-- C8 counterexample: when the platform search command succeeds but
produces no result (empty stdout), `findMetaschemaCliPath` returns the
empty string as a path instead of failing with the Not-Found error. -/
theorem findMetaschemaCliPath_empty_search_output :
    findMetaschemaCliPath (.ok "") = .ok "" ∧
    (Except.ok "" : Except CliError String) ≠ .error .notFound := by
  constructor
  · rfl
  · decide

/-- C8 amended: `findMetaschemaCliPath` returns the first
newline-separated entry of the search command's trimmed output — the
empty string when the output was empty — and fails with the Not-Found
error exactly when the search command itself errors (the length guard on
the split result never fails, because a JavaScript `split` is never
empty). -/
theorem findMetaschemaCliPath_behavior (stdoutText errText : String) :
    findMetaschemaCliPath (.ok stdoutText) =
      .ok (String.mk ((splitNl (trimChars stdoutText.data)).headD [])) ∧
    findMetaschemaCliPath (.error errText) = .error .notFound := by
  constructor
  · unfold findMetaschemaCliPath
    dsimp only
    cases h : splitNl (trimChars stdoutText.data) with
    | nil => exact absurd h (splitNl_ne_nil _)
    | cons p ps => simp
  · rfl

/-- C1: when the external validate run fails and no log file was
produced, `validateWithSarif` throws `consoleErr`, which still holds its
initial value `""` (the assignment `consoleErr = err` only happens after
a successful await) — it does **not** propagate the stderr the failed run
captured (`boom` here). -/
theorem validateWithSarif_failed_run_discards_stderr :
    validateWithSarif
      { proc := { searchResult := .ok "/usr/local/bin/metaschema-cli",
                  spawnError := none, exitCode := 1,
                  stdoutChunks := [], stderrChunks := ["boom"] },
        tempAfterRun := none,
        jsonParse := fun _ => .error "unused" } =
      (.threwString "", false) ∧
    executeMetaschemaCliCommand
      { searchResult := .ok "/usr/local/bin/metaschema-cli",
        spawnError := none, exitCode := 1,
        stdoutChunks := [], stderrChunks := ["boom"] } =
      .error (.procExit 1 "boom") ∧
    ("" : String) ≠ "boom" := by
  refine ⟨rfl, rfl, ?_⟩
  decide

/-- C2: on every return path of `validateWithSarif` — successful run,
failed run with a log file present, failed run with no log file, or a
parse failure on the log — the temporary log file does not exist on disk
when the call returns. -/
theorem validateWithSarif_no_temp_survives (env : SarifEnv) :
    (validateWithSarif env).2 = false := by
  unfold validateWithSarif
  dsimp only
  split
  all_goals split
  all_goals try rfl
  all_goals split <;> rfl

/-- C4: for every file with a supported extension (lower-cased, `.yml`
meaning yaml) whose content parses, in the format the extension selects,
to an object with first top-level key `r`, classification returns the
format matching the extension and the kind `MetaConstraints`
(ConstraintSet) exactly when `r` is `metaschema-meta-constraints`, and
`Metaschema` (Primary) for every other root name, across all three
formats. -/
theorem detectMetaschemaDocumentType_classifies
    (filePath : String) (c : ParsedContent) (fmt : FileFormat)
    (r : String) (v : JSValue) (rest : List (String × JSValue))
    (hfmt : formatOfExt (toLowerAscii (extname filePath)) = some fmt)
    (hparse : parseFor c fmt = .ok (.obj ((r, v) :: rest))) :
    (detectMetaschemaDocumentType filePath c).result =
      .ok ((if r = "metaschema-meta-constraints"
            then MetaschemaDocumentType.MetaConstraints
            else MetaschemaDocumentType.Metaschema), fmt) := by
  unfold formatOfExt at hfmt
  split_ifs at hfmt with h1 h2 h3
  · injection hfmt with hf
    subst hf
    simp only [parseFor] at hparse
    simp [detectMetaschemaDocumentType, h1, supportedExtensions, parseXmlDocument,
      hparse, objectKeysE, jsKeys, getDocumentType_some]
  · injection hfmt with hf
    subst hf
    simp only [parseFor] at hparse
    simp [detectMetaschemaDocumentType, h2, supportedExtensions, parseJsonDocument,
      hparse, objectKeysE, jsKeys, getDocumentType_some]
  · injection hfmt with hf
    subst hf
    simp only [parseFor] at hparse
    rcases h3 with h3 | h3 <;>
      simp [detectMetaschemaDocumentType, h3, supportedExtensions, parseYamlDocument,
        hparse, jsTypeofIsObject, isNull, jsKeys, getDocumentType_some]

/-- C4 witness: concrete classifications in all three formats —
a `.yml` file with root `metaschema-meta-constraints` is a ConstraintSet,
a `.json` file with root `METASCHEMA` is Primary, and an `.xml` file with
root `other-root` is Primary. -/
theorem detectMetaschemaDocumentType_classifies_witness :
    (detectMetaschemaDocumentType "doc.yml"
        { asXml := .error "unused", asJson := .error "unused",
          asYaml := .ok (.obj [("metaschema-meta-constraints", .null)]) }).result =
      .ok (MetaschemaDocumentType.MetaConstraints, FileFormat.yaml) ∧
    (detectMetaschemaDocumentType "doc.json"
        { asXml := .error "unused", asJson := .ok (.obj [("METASCHEMA", .obj [])]),
          asYaml := .error "unused" }).result =
      .ok (MetaschemaDocumentType.Metaschema, FileFormat.json) ∧
    (detectMetaschemaDocumentType "DOC.XML"
        { asXml := .ok (.obj [("other-root", .str "x")]), asJson := .error "unused",
          asYaml := .error "unused" }).result =
      .ok (MetaschemaDocumentType.Metaschema, FileFormat.xml) := by
  refine ⟨?_, ?_, ?_⟩
  · have h := detectMetaschemaDocumentType_classifies "doc.yml"
      { asXml := .error "unused", asJson := .error "unused",
        asYaml := .ok (.obj [("metaschema-meta-constraints", .null)]) }
      FileFormat.yaml "metaschema-meta-constraints" .null [] (by decide) rfl
    simpa using h
  · have h := detectMetaschemaDocumentType_classifies "doc.json"
      { asXml := .error "unused", asJson := .ok (.obj [("METASCHEMA", .obj [])]),
        asYaml := .error "unused" }
      FileFormat.json "METASCHEMA" (.obj []) [] (by decide) rfl
    simpa using h
  · have h := detectMetaschemaDocumentType_classifies "DOC.XML"
      { asXml := .ok (.obj [("other-root", .str "x")]), asJson := .error "unused",
        asYaml := .error "unused" }
      FileFormat.xml "other-root" (.str "x") [] (by decide) rfl
    simpa using h

/-- C5: for every path whose lower-cased extension is not one of `.xml`,
`.json`, `.yaml`, `.yml`, classification fails with the Unsupported-Format
error and never reads the file's content, whatever that content is. -/
theorem detectMetaschemaDocumentType_unsupported
    (filePath : String) (c : ParsedContent)
    (h : toLowerAscii (extname filePath) ∉ supportedExtensions) :
    detectMetaschemaDocumentType filePath c =
      { readsContent := false,
        result := .error "Unsupported file format. Only XML YAML and JSON are supported." } := by
  unfold detectMetaschemaDocumentType
  simp [h]

/-- C5 witness: a `.txt` path is rejected without reading. -/
theorem detectMetaschemaDocumentType_unsupported_witness :
    toLowerAscii (extname "notes.txt") ∉ supportedExtensions ∧
    detectMetaschemaDocumentType "notes.txt"
        { asXml := .error "never parsed", asJson := .error "never parsed",
          asYaml := .error "never parsed" } =
      { readsContent := false,
        result := .error "Unsupported file format. Only XML YAML and JSON are supported." } :=
  ⟨by decide, detectMetaschemaDocumentType_unsupported "notes.txt" _ (by decide)⟩

/-- C10: a `.json` file whose content parses to a value with no
enumerable keys (`Object.keys` succeeds returning `[]`, e.g. a bare
number or an empty object) classifies as `(Metaschema, json)` rather than
failing, while the yaml path rejects any loaded value that is not a
non-null object with the `Invalid YAML structure` error. -/
theorem detect_json_keyless_yaml_strict
    (p q : String) (c d : ParsedContent) (v w : JSValue)
    (hp : toLowerAscii (extname p) = ".json")
    (hc : c.asJson = .ok v)
    (hv : objectKeysE v = .ok [])
    (hq : toLowerAscii (extname q) = ".yaml" ∨ toLowerAscii (extname q) = ".yml")
    (hd : d.asYaml = .ok w)
    (hw : jsTypeofIsObject w = false ∨ isNull w = true) :
    (detectMetaschemaDocumentType p c).result =
        .ok (MetaschemaDocumentType.Metaschema, FileFormat.json) ∧
    (detectMetaschemaDocumentType q d).result = .error "Invalid YAML structure" := by
  constructor
  · simp [detectMetaschemaDocumentType, hp, supportedExtensions, parseJsonDocument,
      hc, hv, getDocumentType]
  · rcases hq with hq | hq <;>
      rcases hw with hw | hw <;>
      simp [detectMetaschemaDocumentType, hq, supportedExtensions, parseYamlDocument,
        hd, hw]

/-- C10 witness: `a.json` containing the bare number `5` classifies as
`(Metaschema, json)`; `b.yaml` containing the bare number `5` fails with
`Invalid YAML structure`. -/
theorem detect_json_keyless_yaml_strict_witness :
    (detectMetaschemaDocumentType "a.json"
        { asXml := .error "unused", asJson := .ok (.num 5),
          asYaml := .error "unused" }).result =
      .ok (MetaschemaDocumentType.Metaschema, FileFormat.json) ∧
    (detectMetaschemaDocumentType "b.yaml"
        { asXml := .error "unused", asJson := .error "unused",
          asYaml := .ok (.num 5) }).result = .error "Invalid YAML structure" :=
  detect_json_keyless_yaml_strict "a.json" "b.yaml" _ _ (.num 5) (.num 5)
    (by decide) rfl rfl (Or.inl (by decide)) rfl (Or.inl rfl)

/-- C9: `isMetaschemaCliInstalled` returns true exactly when the
`where`/`which` probe succeeds or the `./metaschema-cli` entry exists in
the working directory; in particular a search-path miss alone does not
make it false. -/
theorem isMetaschemaCliInstalled_iff (execError : Option String) (cwdEntryExists : Bool) :
    isMetaschemaCliInstalled execError cwdEntryExists = true ↔
      (checkCommand execError = true ∨ cwdEntryExists = true) := by
  cases execError <;> simp [isMetaschemaCliInstalled, checkCommand]
